import Mathlib

/-!
Verification development for the Spot-Exposure-Hedging-Bot risk engine.

The Python sources under `src/risk/calculator.py`, `src/risk/models.py`,
`src/strategies/hedge_strategies.py` and `src/strategies/strategy_manager.py`
are shallowly embedded below.  Numbers are modelled as rationals; the
transcendental helpers coming from numpy/scipy (`np.log`, `np.sqrt`,
`np.exp`, `norm.cdf`, `norm.pdf`) are supplied as an explicit bundle of
functions so that every definition stays executable and the guard/branch
structure of the source is preserved verbatim.  Python `datetime` values are
modelled as rational timestamps measured in years.  Fallible Python code
(statements that can raise) is modelled with `Option`/`Except`.
-/

/-- Bundle of the numerical primitives the pricer takes from numpy / scipy:
logarithm, square root, exponential, standard normal CDF and PDF. -/
structure MathFns where
  log : ℚ → ℚ
  sqrt : ℚ → ℚ
  exp : ℚ → ℚ
  cdf : ℚ → ℚ
  pdf : ℚ → ℚ

/-- Option side; the Python source passes the strings `'call'` / `'put'`
(anything other than `'call'` is treated as a put). -/
inductive OptionType where
  | call
  | put
deriving DecidableEq, Repr

namespace BlackScholesCalculator

/-- `time_to_expiry`: `max(time_diff.total_seconds()/year, 0.0)` with dates
modelled as rational timestamps in years. -/
def time_to_expiry (expiry_date current_date : ℚ) : ℚ :=
  max (expiry_date - current_date) 0

/-- `d1`: returns `0.0` when `T <= 0 or sigma <= 0`, else the Black-Scholes
`d1` formula. -/
def d1 (m : MathFns) (S K T r sigma : ℚ) : ℚ :=
  if T ≤ 0 ∨ sigma ≤ 0 then 0
  else (m.log (S / K) + (r + sigma ^ 2 / 2) * T) / (sigma * m.sqrt T)

/-- `d2`: returns `0.0` when `T <= 0`, else `d1 - sigma*sqrt(T)`. -/
def d2 (m : MathFns) (S K T r sigma : ℚ) : ℚ :=
  if T ≤ 0 then 0
  else d1 m S K T r sigma - sigma * m.sqrt T

/-- `option_price`: intrinsic value when `T <= 0`, else the Black-Scholes
price, floored at `0.0`. -/
def option_price (m : MathFns) (S K T r sigma : ℚ) (option_type : OptionType) : ℚ :=
  if T ≤ 0 then
    match option_type with
    | .call => max (S - K) 0
    | .put => max (K - S) 0
  else
    let d1_val := d1 m S K T r sigma
    let d2_val := d2 m S K T r sigma
    let price :=
      match option_type with
      | .call => S * m.cdf d1_val - K * m.exp (-(r * T)) * m.cdf d2_val
      | .put => K * m.exp (-(r * T)) * m.cdf (-d2_val) - S * m.cdf (-d1_val)
    max price 0

/-- `delta`: step function of S vs K when `T <= 0`, else `N(d1)` for calls and
`N(d1) - 1` for puts. -/
def delta (m : MathFns) (S K T r sigma : ℚ) (option_type : OptionType) : ℚ :=
  if T ≤ 0 then
    match option_type with
    | .call => if S > K then 1 else 0
    | .put => if S < K then -1 else 0
  else
    let d1_val := d1 m S K T r sigma
    match option_type with
    | .call => m.cdf d1_val
    | .put => m.cdf d1_val - 1

/-- `gamma`: returns `0.0` when `T <= 0 or sigma <= 0`, else
`pdf(d1)/(S*sigma*sqrt(T))`. -/
def gamma (m : MathFns) (S K T r sigma : ℚ) : ℚ :=
  if T ≤ 0 ∨ sigma ≤ 0 then 0
  else m.pdf (d1 m S K T r sigma) / (S * sigma * m.sqrt T)

/-- `theta`: returns `0.0` when `T <= 0`, else the theta formula divided by
`365.25` (= 1461/4) to report a daily value. -/
def theta (m : MathFns) (S K T r sigma : ℚ) (option_type : OptionType) : ℚ :=
  if T ≤ 0 then 0
  else
    let d1_val := d1 m S K T r sigma
    let d2_val := d2 m S K T r sigma
    let theta_part1 := -(S * m.pdf d1_val * sigma) / (2 * m.sqrt T)
    match option_type with
    | .call => (theta_part1 + -(r * K * m.exp (-(r * T)) * m.cdf d2_val)) / (1461 / 4)
    | .put => (theta_part1 + r * K * m.exp (-(r * T)) * m.cdf (-d2_val)) / (1461 / 4)

/-- `vega`: returns `0.0` when `T <= 0` (note: no `sigma` guard in the
source), else `S*pdf(d1)*sqrt(T)/100`. -/
def vega (m : MathFns) (S K T r sigma : ℚ) : ℚ :=
  if T ≤ 0 then 0
  else S * m.pdf (d1 m S K T r sigma) * m.sqrt T / 100

/-- `rho`: returns `0.0` when `T <= 0`, else the rho formula scaled by
`1/100`. -/
def rho (m : MathFns) (S K T r sigma : ℚ) (option_type : OptionType) : ℚ :=
  if T ≤ 0 then 0
  else
    let d2_val := d2 m S K T r sigma
    match option_type with
    | .call => K * T * m.exp (-(r * T)) * m.cdf d2_val / 100
    | .put => -(K * T * m.exp (-(r * T)) * m.cdf (-d2_val)) / 100

end BlackScholesCalculator

/-- A concrete instantiation of the numerical primitives used to evaluate the
embedding on closed inputs (a witness interpretation; its only role is to make
concrete evaluation possible, the general theorems hold for every bundle). -/
def mWitness : MathFns :=
  { log := fun _ => 0
    sqrt := fun x => x
    exp := fun _ => 1
    cdf := fun _ => 1 / 2
    pdf := fun _ => 1 }

/-- C4: for every `T ≤ 0` the pricer returns exactly the intrinsic value:
`max (S - K) 0` for a call and `max (K - S) 0` for a put. -/
theorem option_price_intrinsic_at_expiry (m : MathFns) (S K T r sigma : ℚ)
    (hT : T ≤ 0) :
    BlackScholesCalculator.option_price m S K T r sigma .call = max (S - K) 0 ∧
    BlackScholesCalculator.option_price m S K T r sigma .put = max (K - S) 0 := by
  constructor <;> simp [BlackScholesCalculator.option_price, if_pos hT]

/-- Witness for C4 at `S = 101`, `K = 100`, `T = 0`. -/
theorem option_price_intrinsic_at_expiry_witness :
    BlackScholesCalculator.option_price mWitness 101 100 0 (1/20) (1/5) .call = max (101 - 100) 0 ∧
    BlackScholesCalculator.option_price mWitness 101 100 0 (1/20) (1/5) .put = max (100 - 101) 0 :=
  option_price_intrinsic_at_expiry mWitness 101 100 0 (1/20) (1/5) (le_refl 0)

/-- C5: for `S, K, T, sigma > 0`, call delta minus put delta is exactly `1`
(in particular within the spec tolerance of 1e-2). -/
theorem delta_put_call_parity (m : MathFns) (S K T r sigma : ℚ)
    (hS : 0 < S) (hK : 0 < K) (hT : 0 < T) (hsigma : 0 < sigma) :
    BlackScholesCalculator.delta m S K T r sigma .call -
      BlackScholesCalculator.delta m S K T r sigma .put = 1 := by
  have hT2 : ¬ T ≤ 0 := not_le.mpr hT
  simp [BlackScholesCalculator.delta, if_neg hT2]

/-- Witness for C5 at `S = 100`, `K = 90`, `T = 1`, `r = 1/20`,
`sigma = 1/5`. -/
theorem delta_put_call_parity_witness :
    BlackScholesCalculator.delta mWitness 100 90 1 (1/20) (1/5) .call -
      BlackScholesCalculator.delta mWitness 100 90 1 (1/20) (1/5) .put = 1 :=
  delta_put_call_parity mWitness 100 90 1 (1/20) (1/5)
    (by norm_num) (by norm_num) (by norm_num) (by norm_num)

/-- C3 counterexample: at `S = 100`, `K = 100`, `T = 1`, `r = 0`,
`sigma = 0` (so `sigma ≤ 0` with `S, K, T > 0`), `gamma` is `0` but `vega`
is `1 ≠ 0`: the source guards only `gamma` against non-positive volatility,
`vega` checks only `T <= 0`.  Refutes the claim that both return `0`. -/
theorem gamma_vega_sigma_guard_counterexample :
    (0:ℚ) < 100 ∧ (0:ℚ) < 1 ∧ (0:ℚ) ≤ 0 ∧
    ¬ (BlackScholesCalculator.gamma mWitness 100 100 1 0 0 = 0 ∧
       BlackScholesCalculator.vega mWitness 100 100 1 0 0 = 0) := by
  refine ⟨by norm_num, by norm_num, le_refl 0, ?_⟩
  intro h
  have hv := h.2
  norm_num [BlackScholesCalculator.vega, BlackScholesCalculator.d1, mWitness] at hv

/-- C3 amended: for `T > 0` and `sigma ≤ 0`, `gamma` returns `0`, while
`vega` returns `S * pdf 0 * sqrt T / 100` (its formula is evaluated with
`d1 = 0`; no division by `sigma` occurs, and the value is nonzero in
general). -/
theorem gamma_zero_vega_unguarded_nonpositive_sigma (m : MathFns)
    (S K T r sigma : ℚ) (hT : 0 < T) (hsigma : sigma ≤ 0) :
    BlackScholesCalculator.gamma m S K T r sigma = 0 ∧
    BlackScholesCalculator.vega m S K T r sigma = S * m.pdf 0 * m.sqrt T / 100 := by
  have hT2 : ¬ T ≤ 0 := not_le.mpr hT
  constructor
  · simp [BlackScholesCalculator.gamma, hsigma]
  · simp [BlackScholesCalculator.vega, BlackScholesCalculator.d1, hT2, hsigma]

/-- Witness for the amended C3 at `S = 100`, `K = 100`, `T = 1`, `r = 0`,
`sigma = 0`. -/
theorem gamma_zero_vega_unguarded_nonpositive_sigma_witness :
    BlackScholesCalculator.gamma mWitness 100 100 1 0 0 = 0 ∧
    BlackScholesCalculator.vega mWitness 100 100 1 0 0 =
      100 * mWitness.pdf 0 * mWitness.sqrt 1 / 100 :=
  gamma_zero_vega_unguarded_nonpositive_sigma mWitness 100 100 1 0 0
    (by norm_num) (le_refl 0)

/-- Python `int(...)` applied to a (here: rational) number truncates toward
zero. -/
def intTrunc (q : ℚ) : ℤ :=
  if 0 ≤ q then ⌊q⌋ else -⌊-q⌋

/-- Numpy/Python sequence indexing with an integer index: a negative index
counts from the end; an index out of `[-len, len)` raises `IndexError`
(modelled as `none`). -/
def npIndex (xs : List ℚ) (i : ℤ) : Option ℚ :=
  let j := if 0 ≤ i then i else i + xs.length
  if 0 ≤ j ∧ j < (xs.length : ℤ) then some (xs.getD j.toNat 0) else none

/-- `RiskCalculator.calculate_var`: `0.0` on empty input, else sorts
ascending, takes `index = int((1 - confidence_level) * n)` and returns
`-sorted[index]` when `index < n`, else `0.0`.  The result is `none` exactly
when the Python code would raise `IndexError` (an index below `-n`). -/
def calculate_var (returns : List ℚ) (confidence_level : ℚ) : Option ℚ :=
  if returns.length = 0 then some 0
  else
    let sorted_returns := returns.mergeSort (fun a b => a ≤ b)
    let index := intTrunc ((1 - confidence_level) * (returns.length : ℚ))
    if index < (returns.length : ℤ) then (npIndex sorted_returns index).map (fun x => -x)
    else some 0

/-- The claim's description of `calculate_var`: the negation of the element
at index `⌊(1 - c)·n⌋` of the ascending-sorted returns, and `0` when the
array is empty or that index is out of range. -/
def calculate_var_claimed (returns : List ℚ) (c : ℚ) : ℚ :=
  if returns.length = 0 then 0
  else
    let sorted_returns := returns.mergeSort (fun a b => a ≤ b)
    let idx : ℤ := ⌊(1 - c) * (returns.length : ℚ)⌋
    if 0 ≤ idx ∧ idx < (returns.length : ℤ) then -(sorted_returns.getD idx.toNat 0)
    else 0

/-- C6: for every list of returns and every confidence level `c ∈ [0, 1]`,
`calculate_var` computes exactly the value described by the claim: the
negation of the ascending-sorted element at index `⌊(1-c)·n⌋`, and `0`
when the list is empty or the index is out of range. -/
theorem calculate_var_matches_claim (returns : List ℚ) (c : ℚ)
    (h0 : 0 ≤ c) (h1 : c ≤ 1) :
    calculate_var returns c = some (calculate_var_claimed returns c) := by
  unfold calculate_var calculate_var_claimed
  by_cases hn : returns.length = 0
  · simp [hn]
  · have hnq : (0:ℚ) ≤ (1 - c) * (returns.length : ℚ) :=
      mul_nonneg (by linarith) (by positivity)
    have htr : intTrunc ((1 - c) * (returns.length : ℚ)) =
        ⌊(1 - c) * (returns.length : ℚ)⌋ := by
      simp [intTrunc, hnq]
    have hge : 0 ≤ ⌊(1 - c) * (returns.length : ℚ)⌋ := Int.floor_nonneg.mpr hnq
    by_cases hlt : ⌊(1 - c) * (returns.length : ℚ)⌋ < (returns.length : ℤ)
    · simp [hn, htr, hlt, npIndex, hge, List.length_mergeSort]
    · simp [hn, htr, hlt, hge]

/-- Witness for C6 at `returns = [5, -3, 1, -1]`, `c = 19/20`:
both sides evaluate (index `⌊(1/20)·4⌋ = 0`, sorted head `-3`, VaR `3`). -/
theorem calculate_var_matches_claim_witness :
    calculate_var [5, -3, 1, -1] (19/20) =
      some (calculate_var_claimed [5, -3, 1, -1] (19/20)) :=
  calculate_var_matches_claim [5, -3, 1, -1] (19/20) (by norm_num) (by norm_num)

/-- `PositionType` enumeration from `src/risk/models.py`. -/
inductive PositionType where
  | spot
  | futures
  | perpetual
  | option_call
  | option_put
deriving DecidableEq, Repr

/-- `Position` dataclass (timestamps omitted: no embedded claim reads them).
Dates are rational timestamps in years. -/
structure Position where
  symbol : String
  position_type : PositionType
  size : ℚ
  entry_price : ℚ
  current_price : ℚ
  strike_price : Option ℚ := none
  expiry_date : Option ℚ := none
  implied_volatility : Option ℚ := none
  delta : Option ℚ := none
  gamma : Option ℚ := none
  theta : Option ℚ := none
  vega : Option ℚ := none
  rho : Option ℚ := none

/-- `Position.market_value = size * current_price`. -/
def Position.market_value (p : Position) : ℚ :=
  p.size * p.current_price

/-- `Position.pnl = size * (current_price - entry_price)`. -/
def Position.pnl (p : Position) : ℚ :=
  p.size * (p.current_price - p.entry_price)

/-- `Position.is_option`: kind is a call or a put. -/
def Position.is_option (p : Position) : Bool :=
  p.position_type = PositionType.option_call ∨ p.position_type = PositionType.option_put

/-- `Portfolio` dataclass: positions plus cash. -/
structure Portfolio where
  positions : List Position
  cash : ℚ := 0

/-- `Portfolio.total_market_value = Σ market values + cash`. -/
def Portfolio.total_market_value (pf : Portfolio) : ℚ :=
  (pf.positions.map (fun p => p.market_value)).sum + pf.cash

/-- `Portfolio.total_pnl`. -/
def Portfolio.total_pnl (pf : Portfolio) : ℚ :=
  (pf.positions.map (fun p => p.pnl)).sum

/-- `Portfolio.total_delta`: sum of `pos.delta or 0.0`. -/
def Portfolio.total_delta (pf : Portfolio) : ℚ :=
  (pf.positions.map (fun p => p.delta.getD 0)).sum

/-- `Portfolio.total_gamma`. -/
def Portfolio.total_gamma (pf : Portfolio) : ℚ :=
  (pf.positions.map (fun p => p.gamma.getD 0)).sum

/-- `Portfolio.total_theta`. -/
def Portfolio.total_theta (pf : Portfolio) : ℚ :=
  (pf.positions.map (fun p => p.theta.getD 0)).sum

/-- `Portfolio.total_vega`. -/
def Portfolio.total_vega (pf : Portfolio) : ℚ :=
  (pf.positions.map (fun p => p.vega.getD 0)).sum

/-- `RiskThresholds` dataclass with its source defaults. -/
structure RiskThresholds where
  max_delta : ℚ := 1/10
  max_gamma : ℚ := 1/20
  max_vega : ℚ := 1/10
  max_theta : ℚ := 1/20
  max_var_95 : ℚ := 1/50
  max_var_99 : ℚ := 1/20
  max_position_size : ℚ := 100000
  max_portfolio_size : ℚ := 500000
  correlation_threshold : ℚ := 4/5

/-- `RiskThresholds.check_breach`: the six breach flags, in the source's dict
insertion order. -/
def RiskThresholds.check_breach (t : RiskThresholds) (portfolio : Portfolio) :
    List (String × Bool) :=
  [ ("delta", decide (|portfolio.total_delta| > t.max_delta)),
    ("gamma", decide (|portfolio.total_gamma| > t.max_gamma)),
    ("vega", decide (|portfolio.total_vega| > t.max_vega)),
    ("theta", decide (|portfolio.total_theta| > t.max_theta)),
    ("portfolio_size", decide (|portfolio.total_market_value| > t.max_portfolio_size)),
    ("position_size",
      portfolio.positions.any (fun pos => decide (|pos.market_value| > t.max_position_size))) ]

/-- `MarketData` dataclass (timestamp and options chain omitted: no embedded
claim reads them). -/
structure MarketData where
  symbol : String
  price : ℚ
  bid : Option ℚ := none
  ask : Option ℚ := none
  volume : Option ℚ := none
  implied_volatility : Option ℚ := none
  historical_volatility : Option ℚ := none

/-- `HedgeRecommendation` dataclass (timestamp omitted).  `risk_reduction`
is the Python dict modelled as an association list. -/
structure HedgeRecommendation where
  symbol : String
  action : String
  size : ℚ
  instrument_type : PositionType := PositionType.spot
  strategy : Option String := none
  price : Option ℚ := none
  reasoning : String := ""
  urgency : String := "LOW"
  estimated_cost : Option ℚ := none
  risk_reduction : Option (List (String × ℚ)) := none

/-- `PortfolioRiskMetrics` dataclass (timestamp omitted). -/
structure PortfolioRiskMetrics where
  total_value : ℚ
  delta : ℚ
  gamma : ℚ
  theta : ℚ
  vega : ℚ
  unrealized_pnl : ℚ
  var : ℚ

/-- `RiskCalculator.calculate_position_greeks`: non-options get
`delta = ±1`, zero other Greeks; options require strike and expiry (else
`ValueError`, modelled as `.error`), use implied volatility with a default
of 20% when the stored value is falsy (Python `or`: `None` or `0.0`),
compute per-unit Greeks via the pricer and scale all five by the position
size. -/
def calculate_position_greeks (m : MathFns) (risk_free_rate now : ℚ)
    (position : Position) : Except String Position :=
  if ¬ position.is_option then
    .ok { position with
      delta := some (if position.size > 0 then 1 else -1)
      gamma := some 0
      theta := some 0
      vega := some 0
      rho := some 0 }
  else
    match position.strike_price, position.expiry_date with
    | some K, some expiry =>
      let S := position.current_price
      let T := BlackScholesCalculator.time_to_expiry expiry now
      let sigma :=
        match position.implied_volatility with
        | some v => if v = 0 then 1/5 else v
        | none => 1/5
      let option_type :=
        if position.position_type = PositionType.option_call then OptionType.call
        else OptionType.put
      let delta_per_unit := BlackScholesCalculator.delta m S K T risk_free_rate sigma option_type
      let gamma_per_unit := BlackScholesCalculator.gamma m S K T risk_free_rate sigma
      let theta_per_unit := BlackScholesCalculator.theta m S K T risk_free_rate sigma option_type
      let vega_per_unit := BlackScholesCalculator.vega m S K T risk_free_rate sigma
      let rho_per_unit := BlackScholesCalculator.rho m S K T risk_free_rate sigma option_type
      .ok { position with
        delta := some (delta_per_unit * position.size)
        gamma := some (gamma_per_unit * position.size)
        theta := some (theta_per_unit * position.size)
        vega := some (vega_per_unit * position.size)
        rho := some (rho_per_unit * position.size) }
    | _, _ => .error ("Options must have strike price and expiry date")

/-- The accumulation loop of `RiskCalculator.calculate_portfolio_risk`:
per position, refresh the price when the symbol matches the market data,
accumulate value and P&L, recompute Greeks, then sum
`position.delta * position.size` (and likewise for gamma/theta/vega, each
additionally guarded by Python truthiness).  Accumulator:
`(total_value, total_delta, total_gamma, total_theta, total_vega, pnl)`. -/
def portfolio_risk_loop (m : MathFns) (risk_free_rate now : ℚ) (market_data : MarketData) :
    List Position → ℚ × ℚ × ℚ × ℚ × ℚ × ℚ → Except String (ℚ × ℚ × ℚ × ℚ × ℚ × ℚ)
  | [], acc => .ok acc
  | position :: rest, (tv, td, tg, tth, tvg, pnl) =>
    let position :=
      if position.symbol = market_data.symbol then
        { position with current_price := market_data.price }
      else position
    let position_value := position.size * position.current_price
    let position_pnl := position.size * (position.current_price - position.entry_price)
    match calculate_position_greeks m risk_free_rate now position with
    | .error e => .error e
    | .ok updated =>
      let dC := (updated.delta.getD 0) * position.size
      let gC := match updated.gamma with
        | some v => if v = 0 then 0 else v * position.size
        | none => 0
      let thC := match updated.theta with
        | some v => if v = 0 then 0 else v * position.size
        | none => 0
      let vC := match updated.vega with
        | some v => if v = 0 then 0 else v * position.size
        | none => 0
      portfolio_risk_loop m risk_free_rate now market_data rest
        (tv + position_value, td + dC, tg + gC, tth + thC, tvg + vC, pnl + position_pnl)

/-- `RiskCalculator.calculate_portfolio_risk`: runs the loop, normalizes the
four summed Greeks by total value when positive, and returns zeroed metrics
when the loop raised (the source's `except` branch). -/
def calculate_portfolio_risk (m : MathFns) (risk_free_rate now : ℚ)
    (portfolio : Portfolio) (market_data : MarketData) : PortfolioRiskMetrics :=
  match portfolio_risk_loop m risk_free_rate now market_data portfolio.positions
      (0, 0, 0, 0, 0, 0) with
  | .ok (tv, td, tg, tth, tvg, pnl) =>
    if tv > 0 then
      { total_value := tv, delta := td / tv, gamma := tg / tv, theta := tth / tv,
        vega := tvg / tv, unrealized_pnl := pnl, var := 0 }
    else
      { total_value := tv, delta := 0, gamma := 0, theta := 0, vega := 0,
        unrealized_pnl := pnl, var := 0 }
  | .error _ =>
    { total_value := 0, delta := 0, gamma := 0, theta := 0, vega := 0,
      unrealized_pnl := 0, var := 0 }

/-- The C1 failing input: one long call, size 2, S = K = 100, one year to
expiry, 20% implied volatility. -/
def positionC1 : Position :=
  { symbol := "BTC"
    position_type := PositionType.option_call
    size := 2
    entry_price := 100
    current_price := 100
    strike_price := some 100
    expiry_date := some 1
    implied_volatility := some (1/5) }

/-- Portfolio holding only `positionC1`. -/
def portfolioC1 : Portfolio :=
  { positions := [positionC1], cash := 0 }

/-- Market data for the C1 evaluation (same symbol, same price, so the
refresh is a no-op). -/
def marketDataC1 : MarketData :=
  { symbol := "BTC", price := 100 }

/-- C1 (code bug evaluation): with `cdf = 1/2`, `calculate_position_greeks`
stores `delta = per-unit(1/2) * size(2) = 1` — the size-scaled convention —
but `calculate_portfolio_risk` multiplies the stored field by `size` again,
yielding normalized delta `(1 * 2) / 200 = 1/100` instead of the
convention's `1 / 200`: the stored total exposure is re-scaled by size. -/
theorem calculate_portfolio_risk_double_scales :
    ((calculate_position_greeks mWitness 0 0 positionC1).map (fun p => p.delta) =
      .ok (some 1)) ∧
    (calculate_portfolio_risk mWitness 0 0 portfolioC1 marketDataC1).delta = 1/100 ∧
    ((1:ℚ)/100 ≠ 1/200) := by
  refine ⟨?_, ?_, by norm_num⟩
  · norm_num [calculate_position_greeks, positionC1, Position.is_option,
      BlackScholesCalculator.delta, BlackScholesCalculator.d1,
      BlackScholesCalculator.time_to_expiry, mWitness, Except.map]
  · norm_num [calculate_portfolio_risk, portfolio_risk_loop, portfolioC1, marketDataC1,
      calculate_position_greeks, positionC1, Position.is_option,
      BlackScholesCalculator.delta, BlackScholesCalculator.gamma,
      BlackScholesCalculator.theta, BlackScholesCalculator.vega,
      BlackScholesCalculator.rho, BlackScholesCalculator.d1, BlackScholesCalculator.d2,
      BlackScholesCalculator.time_to_expiry, mWitness]

/-- Is `pat` a prefix of the character list? -/
def charsMatch : List Char → List Char → Bool
  | [], _ => true
  | _ :: _, [] => false
  | c :: cs, d :: ds => c = d && charsMatch cs ds

/-- Does `pat` occur as a contiguous sublist? (Python `pat in s`.) -/
def hasSubList (pat : List Char) : List Char → Bool
  | [] => charsMatch pat []
  | d :: ds => charsMatch pat (d :: ds) || hasSubList pat ds

/-- Python `pat in s` on strings. -/
def strContains (s pat : String) : Bool :=
  hasSubList pat.toList s.toList

/-- Python `str.lower()` (ASCII suffices for the source's fixed tags). -/
def strLower (s : String) : String :=
  String.mk (s.toList.map Char.toLower)

/-- Python `str.upper()`. -/
def strUpper (s : String) : String :=
  String.mk (s.toList.map Char.toUpper)

/-- Rendering of a number inside an f-string.  The Python source interpolates
numbers with formats like `:.3f`; every claim-relevant string match is on the
fixed words around the number, so the digit rendering is immaterial and the
default rational rendering is used. -/
def ratStr (q : ℚ) : String :=
  toString q

/-- Python dict `d[k] = v`: replace in place or append (insertion order). -/
def dictInsert {β : Type} (l : List (String × β)) (k : String) (v : β) :
    List (String × β) :=
  match l with
  | [] => [(k, v)]
  | (k2, v2) :: rest => if k2 = k then (k, v) :: rest else (k2, v2) :: dictInsert rest k v

/-- Python dict lookup `d.get(k)`: first (and only) binding. -/
def dictGet {β : Type} (l : List (String × β)) (k : String) : Option β :=
  match l with
  | [] => none
  | (k2, v) :: rest => if k2 = k then some v else dictGet rest k

/-- The `asset_deltas` accumulation: `d.setdefault(k, 0); d[k] += v`. -/
def dictAddQ (l : List (String × ℚ)) (k : String) (v : ℚ) : List (String × ℚ) :=
  match l with
  | [] => [(k, v)]
  | (k2, v2) :: rest => if k2 = k then (k2, v2 + v) :: rest else (k2, v2) :: dictAddQ rest k v

/-- The position-grouping accumulation: `d.setdefault(k, []); d[k].append(p)`. -/
def dictAppendPos (l : List (String × List Position)) (k : String) (p : Position) :
    List (String × List Position) :=
  match l with
  | [] => [(k, [p])]
  | (k2, v2) :: rest =>
    if k2 = k then (k2, v2 ++ [p]) :: rest else (k2, v2) :: dictAppendPos rest k p

/-- `HedgeStrategy` enumeration from `src/strategies/hedge_strategies.py`. -/
inductive HedgeStrategy where
  | delta_neutral
  | protective_put
  | covered_call
  | collar
  | pairs_trading
  | futures_hedge
deriving DecidableEq, Repr

/-- The `.value` string of each `HedgeStrategy` member. -/
def strategyValue : HedgeStrategy → String
  | .delta_neutral => "delta_neutral"
  | .protective_put => "protective_put"
  | .covered_call => "covered_call"
  | .collar => "collar"
  | .pairs_trading => "pairs_trading"
  | .futures_hedge => "futures_hedge"

/-- `HedgeUrgency` enumeration. -/
inductive HedgeUrgency where
  | low
  | medium
  | high
  | critical
deriving DecidableEq, Repr

/-- The `.value` string of each `HedgeUrgency` member. -/
def urgencyValue : HedgeUrgency → String
  | .low => "LOW"
  | .medium => "MEDIUM"
  | .high => "HIGH"
  | .critical => "CRITICAL"

/-- `HedgeConfig` dataclass with its source defaults. -/
structure HedgeConfig where
  strategy : HedgeStrategy
  enabled : Bool := true
  delta_threshold : ℚ := 1/10
  rebalance_threshold : ℚ := 1/20
  hedge_ratio : ℚ := 1
  protective_put_delta : ℚ := -(1/5)
  covered_call_delta : ℚ := 3/10
  collar_put_delta : ℚ := -(1/5)
  collar_call_delta : ℚ := 3/10
  max_hedge_cost : ℚ := 1/50
  min_cost_improvement : ℚ := 1/1000
  min_time_to_expiry : ℚ := 7
  max_time_to_expiry : ℚ := 60
  max_slippage : ℚ := 1/1000
  confidence_level : ℚ := 19/20

/-- `ExecutionCost` dataclass. -/
structure ExecutionCost where
  strategy : HedgeStrategy
  estimated_cost : ℚ
  bid_ask_spread_cost : ℚ
  slippage_cost : ℚ
  commission_cost : ℚ
  market_impact_cost : ℚ
  total_cost : ℚ
  cost_percentage : ℚ

/-- Constructing an `ExecutionCost`: `__post_init__` overwrites whatever was
passed for `total_cost` with
`estimated_cost + bid_ask_spread_cost + slippage_cost + commission_cost + market_impact_cost`. -/
def ExecutionCost.create (strategy : HedgeStrategy)
    (estimated_cost bid_ask_spread_cost slippage_cost commission_cost
     market_impact_cost total_cost_arg cost_percentage : ℚ) : ExecutionCost :=
  { strategy := strategy
    estimated_cost := estimated_cost
    bid_ask_spread_cost := bid_ask_spread_cost
    slippage_cost := slippage_cost
    commission_cost := commission_cost
    market_impact_cost := market_impact_cost
    total_cost := estimated_cost + bid_ask_spread_cost + slippage_cost +
      commission_cost + market_impact_cost
    cost_percentage := cost_percentage }

/-- C9 counterexample: an `ExecutionCost` constructed with
`estimated_cost = 1` and all four decomposition components `0` has
`total_cost = 1`, not the claimed four-component sum `0`: `__post_init__`
adds `estimated_cost` as a fifth term. -/
theorem execution_cost_total_counterexample :
    (ExecutionCost.create HedgeStrategy.delta_neutral 1 0 0 0 0 0 0).total_cost ≠
      (ExecutionCost.create HedgeStrategy.delta_neutral 1 0 0 0 0 0 0).bid_ask_spread_cost +
      (ExecutionCost.create HedgeStrategy.delta_neutral 1 0 0 0 0 0 0).slippage_cost +
      (ExecutionCost.create HedgeStrategy.delta_neutral 1 0 0 0 0 0 0).commission_cost +
      (ExecutionCost.create HedgeStrategy.delta_neutral 1 0 0 0 0 0 0).market_impact_cost := by
  norm_num [ExecutionCost.create]

/-- C9 amended: every constructed `ExecutionCost` has
`total_cost = estimated_cost + bid_ask_spread_cost + slippage_cost +
commission_cost + market_impact_cost` — the four decomposition components
plus the pre-existing estimated cost. -/
theorem execution_cost_total_is_five_component_sum (st : HedgeStrategy)
    (ec sp sl co mi tc cp : ℚ) :
    (ExecutionCost.create st ec sp sl co mi tc cp).total_cost =
      (ExecutionCost.create st ec sp sl co mi tc cp).estimated_cost +
      (ExecutionCost.create st ec sp sl co mi tc cp).bid_ask_spread_cost +
      (ExecutionCost.create st ec sp sl co mi tc cp).slippage_cost +
      (ExecutionCost.create st ec sp sl co mi tc cp).commission_cost +
      (ExecutionCost.create st ec sp sl co mi tc cp).market_impact_cost :=
  rfl

/-- `BaseHedgeStrategy._determine_urgency`. -/
def determine_urgency (risk_breach_severity : ℚ) : HedgeUrgency :=
  if risk_breach_severity > 3 then .critical
  else if risk_breach_severity > 2 then .high
  else if risk_breach_severity > 3/2 then .medium
  else .low

/-- `BaseHedgeStrategy._calculate_risk_reduction`. -/
def calculate_risk_reduction (hedge_delta hedge_gamma : ℚ) : List (String × ℚ) :=
  [ ("delta_reduction", |hedge_delta|),
    ("gamma_reduction", |hedge_gamma|),
    ("var_reduction", min (|hedge_delta| * (1/10)) (1/2)) ]

/-- `BaseHedgeStrategy.estimate_execution_cost`.  `none` models the
`ZeroDivisionError` the source raises at `cost_percentage = ... / notional`
when the notional is zero.  `recommendation.price or market_data.price`
is Python truthiness: a stored price of `0` also falls back. -/
def estimate_execution_cost (st : HedgeStrategy) (config : HedgeConfig)
    (recommendation : HedgeRecommendation) (market_data : MarketData) :
    Option ExecutionCost :=
  let price_used :=
    match recommendation.price with
    | some p => if p = 0 then market_data.price else p
    | none => market_data.price
  let notional_value := |recommendation.size * price_used|
  let spread_cost :=
    match market_data.bid, market_data.ask with
    | some b, some a => if b ≠ 0 ∧ a ≠ 0 then (a - b) * |recommendation.size| / 2 else 0
    | _, _ => 0
  let slippage_cost := notional_value * config.max_slippage
  let commission_cost := max (notional_value * (1/10000)) 1
  let market_impact_cost := if notional_value > 100000 then notional_value * (5/10000) else 0
  let estimated_cost := recommendation.estimated_cost.getD 0
  if notional_value = 0 then none
  else
    some (ExecutionCost.create st estimated_cost spread_cost slippage_cost
      commission_cost market_impact_cost 0
      ((estimated_cost + spread_cost + slippage_cost + commission_cost + market_impact_cost)
        / notional_value))

/-- `DeltaNeutralStrategy._extract_base_symbol`:
`symbol.split('_')[0].split('-')[0].split('/')[0]`. -/
def dn_extract_base_symbol (symbol : String) : String :=
  let s1 := String.mk (symbol.toList.takeWhile (fun c => c ≠ '_'))
  let s2 := String.mk (s1.toList.takeWhile (fun c => c ≠ '-'))
  String.mk (s2.toList.takeWhile (fun c => c ≠ '/'))

/-- `DeltaNeutralStrategy._select_hedge_instrument`: the hardcoded
underlying-to-instrument map with `"{symbol}-PERP"` fallback. -/
def dn_select_hedge_instrument (symbol : String) : String :=
  if symbol = "AAPL" then "QQQ"
  else if symbol = "GOOGL" then "QQQ"
  else if symbol = "MSFT" then "QQQ"
  else if symbol = "TSLA" then "QQQ"
  else if symbol = "SPY" then "ES=F"
  else if symbol = "QQQ" then "NQ=F"
  else if symbol = "BTC-USD" then "BTC/USDT"
  else if symbol = "ETH-USD" then "ETH/USDT"
  else symbol ++ "-PERP"

/-- `DeltaNeutralStrategy._calculate_hedge_size_for_delta`:
`-(current_delta - target_delta) * hedge_ratio`. -/
def dn_calculate_hedge_size_for_delta (config : HedgeConfig) (position : Position)
    (target_delta : ℚ) : ℚ :=
  -((position.delta.getD 0) - target_delta) * config.hedge_ratio

/-- `DeltaNeutralStrategy.analyze_position`.  (The severity division assumes
the configured `delta_threshold` is nonzero, which holds for every config
constructed in the source; Python would raise on a zero threshold.) -/
def dn_analyze_position (config : HedgeConfig) (position : Position)
    (market_data : MarketData) : Option HedgeRecommendation :=
  if ¬ config.enabled then none
  else
    let current_delta := position.delta.getD 0
    let abs_delta := |current_delta|
    if abs_delta < config.delta_threshold then none
    else
      let hedge_size := dn_calculate_hedge_size_for_delta config position 0
      if |hedge_size| < 1 then none
      else
        let hedge_instrument := dn_select_hedge_instrument position.symbol
        let hedge_cost := |hedge_size| * market_data.price * (1/1000)
        let risk_severity := abs_delta / config.delta_threshold
        let urgency := determine_urgency risk_severity
        let risk_reduction := calculate_risk_reduction (-current_delta) 0
        some
          { symbol := hedge_instrument
            action := if hedge_size > 0 then "SELL" else "BUY"
            size := |hedge_size|
            instrument_type := PositionType.futures
            price := some market_data.price
            reasoning := "Delta hedge: neutralizing " ++ ratStr current_delta ++ " delta exposure"
            urgency := urgencyValue urgency
            estimated_cost := some hedge_cost
            risk_reduction := some risk_reduction }

/-- `DeltaNeutralStrategy.analyze_portfolio`: returns early when the total
delta is under the threshold, otherwise nets delta per base underlying and
hedges each netted exposure above the threshold that has market data. -/
def dn_analyze_portfolio (config : HedgeConfig) (portfolio : Portfolio)
    (market_data : List (String × MarketData)) : List HedgeRecommendation :=
  let total_delta := portfolio.total_delta
  if |total_delta| < config.delta_threshold then []
  else
    let asset_deltas := portfolio.positions.foldl
      (fun acc pos => dictAddQ acc (dn_extract_base_symbol pos.symbol) (pos.delta.getD 0)) []
    asset_deltas.foldl
      (fun recs kv =>
        if |kv.2| > config.delta_threshold then
          match dictGet market_data kv.1 with
          | some md =>
            let synthetic : Position :=
              { symbol := kv.1
                position_type := PositionType.spot
                size := kv.2
                entry_price := md.price
                current_price := md.price
                delta := some kv.2 }
            match dn_analyze_position config synthetic md with
            | some rec => recs ++ [rec]
            | none => recs
          | none => recs
        else recs) []

/-- `ProtectivePutStrategy._estimate_put_premium`:
`max(strike - spot, 0) + spot * 0.25 * sqrt(days/365) * 0.4`. -/
def pp_estimate_put_premium (m : MathFns) (spot_price strike_price days_to_expiry : ℚ) : ℚ :=
  let time_value := days_to_expiry / 365
  let intrinsic := max (strike_price - spot_price) 0
  intrinsic + spot_price * (1/4) * m.sqrt time_value * (2/5)

/-- `ProtectivePutStrategy.analyze_position`. -/
def pp_analyze_position (m : MathFns) (config : HedgeConfig) (position : Position)
    (market_data : MarketData) : Option HedgeRecommendation :=
  if ¬ config.enabled ∨ position.size ≤ 0 then none
  else
    let position_value := position.market_value
    if position_value < 10000 then none
    else
      let current_price := market_data.price
      let put_strike := current_price * (1 + config.protective_put_delta)
      let put_premium := pp_estimate_put_premium m current_price put_strike 30
      let total_cost := put_premium * position.size
      if total_cost > position_value * config.max_hedge_cost then none
      else
        let max_loss_with_hedge := max 0 ((current_price - put_strike) * position.size + total_cost)
        let risk_reduction_value := position_value - max_loss_with_hedge
        some
          { symbol := position.symbol ++ "_PUT_" ++ ratStr put_strike
            action := "BUY"
            size := position.size
            instrument_type := PositionType.option_put
            price := some put_premium
            reasoning := "Protective put for $" ++ ratStr position_value ++ " long position"
            urgency := urgencyValue HedgeUrgency.medium
            estimated_cost := some total_cost
            risk_reduction := some
              [ ("downside_protection", risk_reduction_value),
                ("max_loss_reduction", risk_reduction_value / position_value),
                ("cost_ratio", total_cost / position_value) ] }

/-- `ProtectivePutStrategy.analyze_portfolio`: groups long non-option
positions per symbol, aggregates each group at its size-weighted average
entry price, and analyzes the aggregate. -/
def pp_analyze_portfolio (m : MathFns) (config : HedgeConfig) (portfolio : Portfolio)
    (market_data : List (String × MarketData)) : List HedgeRecommendation :=
  let long_positions := portfolio.positions.foldl
    (fun acc pos =>
      if pos.size > 0 ∧ ¬ pos.is_option then dictAppendPos acc pos.symbol pos else acc) []
  long_positions.foldl
    (fun recs kv =>
      match dictGet market_data kv.1 with
      | some md =>
        let positions := kv.2
        let total_size := (positions.map (fun p => p.size)).sum
        let avg_price := (positions.map (fun p => p.entry_price * p.size)).sum / total_size
        let aggregate : Position :=
          { symbol := kv.1
            position_type := PositionType.spot
            size := total_size
            entry_price := avg_price
            current_price := md.price }
        match pp_analyze_position m config aggregate md with
        | some rec => recs ++ [rec]
        | none => recs
      | none => recs) []

/-- `CollarStrategy._estimate_call_premium`. -/
def collar_estimate_call_premium (m : MathFns) (spot_price strike_price days_to_expiry : ℚ) : ℚ :=
  let time_value := days_to_expiry / 365
  let intrinsic := max (spot_price - strike_price) 0
  intrinsic + spot_price * (1/4) * m.sqrt time_value * (2/5)

/-- `CollarStrategy._estimate_put_premium` (duplicated in the source). -/
def collar_estimate_put_premium (m : MathFns) (spot_price strike_price days_to_expiry : ℚ) : ℚ :=
  let time_value := days_to_expiry / 365
  let intrinsic := max (strike_price - spot_price) 0
  intrinsic + spot_price * (1/4) * m.sqrt time_value * (2/5)

/-- `CollarStrategy.analyze_position`. -/
def collar_analyze_position (m : MathFns) (config : HedgeConfig) (position : Position)
    (market_data : MarketData) : Option HedgeRecommendation :=
  if ¬ config.enabled ∨ position.size ≤ 0 then none
  else
    let position_value := position.market_value
    if position_value < 25000 then none
    else
      let current_price := market_data.price
      let put_strike := current_price * (1 + config.collar_put_delta / 10)
      let call_strike := current_price * (1 + config.collar_call_delta / 10)
      let put_premium := collar_estimate_put_premium m current_price put_strike 30
      let call_premium := collar_estimate_call_premium m current_price call_strike 30
      let net_cost := (put_premium - call_premium) * position.size
      if net_cost > position_value * config.max_hedge_cost then none
      else
        let max_gain := (call_strike - current_price) * position.size - net_cost
        some
          { symbol := position.symbol ++ "_COLLAR_" ++ ratStr put_strike ++ "_" ++ ratStr call_strike
            action := "COLLAR"
            size := position.size
            instrument_type := PositionType.option_call
            price := some ((put_premium + call_premium) / 2)
            reasoning := "Collar strategy for $" ++ ratStr position_value ++ " position"
            urgency := urgencyValue HedgeUrgency.medium
            estimated_cost := some |net_cost|
            risk_reduction := some
              [ ("downside_protection", (current_price - put_strike) * position.size),
                ("upside_cap", max_gain),
                ("net_cost", net_cost),
                ("cost_ratio", net_cost / position_value) ] }

/-- `CollarStrategy.analyze_portfolio`: like the protective put, restricted
to positions whose market value exceeds 25000. -/
def collar_analyze_portfolio (m : MathFns) (config : HedgeConfig) (portfolio : Portfolio)
    (market_data : List (String × MarketData)) : List HedgeRecommendation :=
  let long_positions := portfolio.positions.foldl
    (fun acc pos =>
      if pos.size > 0 ∧ ¬ pos.is_option ∧ pos.market_value > 25000 then
        dictAppendPos acc pos.symbol pos
      else acc) []
  long_positions.foldl
    (fun recs kv =>
      match dictGet market_data kv.1 with
      | some md =>
        let positions := kv.2
        let total_size := (positions.map (fun p => p.size)).sum
        let avg_price := (positions.map (fun p => p.entry_price * p.size)).sum / total_size
        let aggregate : Position :=
          { symbol := kv.1
            position_type := PositionType.spot
            size := total_size
            entry_price := avg_price
            current_price := md.price }
        match collar_analyze_position m config aggregate md with
        | some rec => recs ++ [rec]
        | none => recs
      | none => recs) []

/-- One registered strategy inside the manager: its type tag, its config and
its `analyze_portfolio` behavior.  The behavior returns `Except` so that a
strategy that raises (any exception) is representable; the manager catches
per-strategy. -/
structure StrategyEntry where
  stype : HedgeStrategy
  config : HedgeConfig
  analyze : Portfolio → List (String × MarketData) → Except String (List HedgeRecommendation)

/-- `StrategyManager` state: thresholds, the strategy registry (insertion
order), and the per-strategy `total_recommendations` performance counters
(the only counter `analyze_portfolio` touches). -/
structure StrategyManager where
  risk_thresholds : RiskThresholds
  strategies : List StrategyEntry
  performance : List (HedgeStrategy × Nat)

/-- Increment a strategy's `total_recommendations` counter. -/
def perfAddRecs (perf : List (HedgeStrategy × Nat)) (st : HedgeStrategy) (n : Nat) :
    List (HedgeStrategy × Nat) :=
  perf.map (fun kv => if kv.1 = st then (kv.1, kv.2 + n) else kv)

/-- The body of the manager's per-strategy loop: skip disabled strategies,
catch a raising strategy (contributing nothing), tag each recommendation's
reasoning with `[strategy.value] ` and bump the counter. -/
def analyze_step (portfolio : Portfolio) (market_data : List (String × MarketData))
    (acc : List HedgeRecommendation × List (HedgeStrategy × Nat)) (entry : StrategyEntry) :
    List HedgeRecommendation × List (HedgeStrategy × Nat) :=
  if ¬ entry.config.enabled then acc
  else
    match entry.analyze portfolio market_data with
    | .ok recs =>
      let tagged := recs.map
        (fun r => { r with reasoning := ("[") ++ strategyValue entry.stype ++ ("] ") ++ r.reasoning })
      (acc.1 ++ tagged, perfAddRecs acc.2 entry.stype tagged.length)
    | .error _ => acc

/-- `StrategyManager.analyze_portfolio`: short-circuits to the empty list
(and untouched counters) unless `check_breach` reports at least one true
flag; otherwise folds the per-strategy loop. -/
def StrategyManager.analyze_portfolio (mgr : StrategyManager) (portfolio : Portfolio)
    (market_data : List (String × MarketData)) :
    List HedgeRecommendation × List (HedgeStrategy × Nat) :=
  if (mgr.risk_thresholds.check_breach portfolio).any (fun kv => kv.2) then
    mgr.strategies.foldl (analyze_step portfolio market_data) ([], mgr.performance)
  else
    ([], mgr.performance)

/-- The minimal per-position market-data map `get_hedge_recommendations`
synthesizes when none is supplied (dict build: last write per symbol wins). -/
def synthesize_market_data (positions : List Position) : List (String × MarketData) :=
  positions.foldl
    (fun acc p => dictInsert acc p.symbol { symbol := p.symbol, price := p.current_price }) []

/-- The fallback recommendation `get_hedge_recommendations` builds from the
first position: SELL 50% of its size, tagged `DELTA_NEUTRAL`, cost estimated
at 0.5% of the position notional. -/
def basic_recommendation (position : Position) : HedgeRecommendation :=
  { symbol := position.symbol
    action := "SELL"
    size := position.size * (1/2)
    instrument_type := PositionType.spot
    strategy := some ("DELTA_NEUTRAL")
    price := none
    reasoning := "Basic delta-neutral hedge recommendation"
    urgency := "MEDIUM"
    estimated_cost := some (position.size * position.current_price * (5/1000))
    risk_reduction := some [("delta_reduction", 1/2), ("var_reduction", 1/5)] }

/-- `StrategyManager.get_hedge_recommendations`: synthesizes market data if
none is given, delegates to `analyze_portfolio`, and falls back to one basic
recommendation when the analysis is empty but the portfolio is not.  The
source wraps the body in `try/except` returning `[]`; in the embedding the
body is total (per-strategy failures are already caught inside
`analyze_portfolio`), so the except branch has no reachable counterpart. -/
def StrategyManager.get_hedge_recommendations (mgr : StrategyManager)
    (portfolio : Portfolio) (market_data : Option (List (String × MarketData))) :
    List HedgeRecommendation :=
  let md :=
    match market_data with
    | none => synthesize_market_data portfolio.positions
    | some m => m
  let recommendations := (mgr.analyze_portfolio portfolio md).1
  if recommendations.isEmpty && !portfolio.positions.isEmpty then
    match portfolio.positions with
    | position :: _ => [basic_recommendation position]
    | [] => recommendations
  else
    recommendations

/-- `StrategyManager._extract_strategy_type`: looks for `[value]` tags in
enum declaration order, then falls back to keyword matching on the
lowercased reasoning. -/
def extract_strategy_type (reasoning : String) : Option HedgeStrategy :=
  if strContains reasoning ("[delta_neutral]") then some HedgeStrategy.delta_neutral
  else if strContains reasoning ("[protective_put]") then some HedgeStrategy.protective_put
  else if strContains reasoning ("[covered_call]") then some HedgeStrategy.covered_call
  else if strContains reasoning ("[collar]") then some HedgeStrategy.collar
  else if strContains reasoning ("[pairs_trading]") then some HedgeStrategy.pairs_trading
  else if strContains reasoning ("[futures_hedge]") then some HedgeStrategy.futures_hedge
  else
    let lower := strLower reasoning
    if strContains lower ("delta") && strContains lower ("neutral") then
      some HedgeStrategy.delta_neutral
    else if strContains lower ("protective") && strContains lower ("put") then
      some HedgeStrategy.protective_put
    else if strContains lower ("collar") then some HedgeStrategy.collar
    else none

/-- `StrategyManager._calculate_effectiveness_score` (Python truthiness: a
missing or empty risk-reduction dict yields the default 0.5). -/
def calculate_effectiveness_score (rec : HedgeRecommendation) (portfolio : Portfolio) : ℚ :=
  match rec.risk_reduction with
  | none => 1/2
  | some rr =>
    if rr.isEmpty then 1/2
    else
      let delta_reduction := (dictGet rr ("delta_reduction")).getD 0
      let var_reduction := (dictGet rr ("var_reduction")).getD 0
      let portfolio_delta := |portfolio.total_delta|
      let delta_score := min (delta_reduction / max portfolio_delta (1/10)) 1
      let var_score := var_reduction * 2
      (delta_score + var_score) / 2

/-- `StrategyManager._calculate_urgency_score`: the fixed urgency mapping
with default 0.5. -/
def calculate_urgency_score (rec : HedgeRecommendation) : ℚ :=
  let u := strUpper rec.urgency
  if u = "LOW" then 1/4
  else if u = "MEDIUM" then 1/2
  else if u = "HIGH" then 3/4
  else if u = "CRITICAL" then 1
  else 1/2

/-- `StrategyManager._calculate_cost_score`:
`max(0, 1 - (cost/|portfolio value|) * 20)`, `0` on a zero-value
portfolio. -/
def calculate_cost_score (exec_cost : ExecutionCost) (portfolio : Portfolio) : ℚ :=
  let portfolio_value := |portfolio.total_market_value|
  if portfolio_value = 0 then 0
  else max 0 (1 - exec_cost.total_cost / portfolio_value * 20)

/-- `StrategyRanking` dataclass. -/
structure StrategyRanking where
  strategy : HedgeStrategy
  recommendation : HedgeRecommendation
  cost : ExecutionCost
  effectiveness_score : ℚ
  urgency_score : ℚ
  cost_score : ℚ
  total_score : ℚ

/-- Constructing a `StrategyRanking`: `__post_init__` overwrites the passed
total with `0.4*effectiveness + 0.3*urgency + 0.3*cost`. -/
def StrategyRanking.create (strategy : HedgeStrategy) (recommendation : HedgeRecommendation)
    (cost : ExecutionCost) (effectiveness_score urgency_score cost_score total_arg : ℚ) :
    StrategyRanking :=
  { strategy := strategy
    recommendation := recommendation
    cost := cost
    effectiveness_score := effectiveness_score
    urgency_score := urgency_score
    cost_score := cost_score
    total_score := effectiveness_score * (2/5) + urgency_score * (3/10) + cost_score * (3/10) }

/-- Registry lookup `self.strategies[strategy_type]`. -/
def lookup_strategy (mgr : StrategyManager) (st : HedgeStrategy) : Option StrategyEntry :=
  mgr.strategies.find? (fun e => decide (e.stype = st))

/-- One iteration of `StrategyManager.rank_recommendations`; `none` models
the `except ... continue` paths:
* strategy tag missing or not registered — the source then constructs an
  `ExecutionCost` with keyword arguments that do not exist on the dataclass
  (`transaction_costs`, `bid_ask_spread`, `market_impact`), raising
  `TypeError`, so the recommendation is skipped;
* proxy market data with a `None` price (recommendation without a price and
  symbol absent from the map), raising `TypeError` in the cost estimate;
* a zero notional, raising `ZeroDivisionError` in the cost estimate. -/
def rank_one (mgr : StrategyManager) (portfolio : Portfolio)
    (market_data : List (String × MarketData)) (rec : HedgeRecommendation) :
    Option StrategyRanking :=
  match extract_strategy_type rec.reasoning with
  | none => none
  | some st =>
    match lookup_strategy mgr st with
    | none => none
    | some entry =>
      let hedge_market_data :=
        match dictGet market_data rec.symbol with
        | some md => some md
        | none =>
          match rec.price with
          | some p => some { symbol := rec.symbol, price := p }
          | none => none
      match hedge_market_data with
      | none => none
      | some md =>
        match estimate_execution_cost entry.config.strategy entry.config rec md with
        | none => none
        | some exec_cost =>
          some (StrategyRanking.create st rec exec_cost
            (calculate_effectiveness_score rec portfolio)
            (calculate_urgency_score rec)
            (calculate_cost_score exec_cost portfolio) 0)

/-- `StrategyManager.rank_recommendations`: rank each recommendation
(skipping the raising ones) and sort by total score, descending, stably. -/
def StrategyManager.rank_recommendations (mgr : StrategyManager)
    (recommendations : List HedgeRecommendation) (portfolio : Portfolio)
    (market_data : List (String × MarketData)) : List StrategyRanking :=
  (recommendations.filterMap (rank_one mgr portfolio market_data)).mergeSort
    (fun a b => b.total_score ≤ a.total_score)

/-- `StrategyManager._get_risk_type`: keyword classification of the
addressed risk. -/
def get_risk_type (rec : HedgeRecommendation) : String :=
  let lower := strLower rec.reasoning
  if strContains lower ("delta") then "delta"
  else if strContains lower ("protective") then "downside"
  else if strContains lower ("collar") then "volatility"
  else "general"

/-- The greedy selection loop of `select_optimal_hedges`: walk the ranked
list, skip a candidate that would blow the budget, accept it when its risk
type is new or its score exceeds 0.8, tracking cumulative cost and covered
risk types.  Returns the accepted rankings in order. -/
def select_greedy (budget : ℚ) :
    List StrategyRanking → ℚ → List String → List StrategyRanking
  | [], _, _ => []
  | ranking :: rest, total_cost, covered_risks =>
    let cost := ranking.cost.total_cost
    if total_cost + cost > budget then select_greedy budget rest total_cost covered_risks
    else
      let risk_type := get_risk_type ranking.recommendation
      if ¬ covered_risks.contains risk_type ∨ ranking.total_score > 4/5 then
        ranking :: select_greedy budget rest (total_cost + cost) (risk_type :: covered_risks)
      else
        select_greedy budget rest total_cost covered_risks

/-- The effective budget of `select_optimal_hedges`: the supplied
`max_hedge_cost`, else 2% of the absolute portfolio market value. -/
def effective_budget (portfolio : Portfolio) (max_hedge_cost : Option ℚ) : ℚ :=
  match max_hedge_cost with
  | some c => c
  | none => |portfolio.total_market_value| * (2/100)

/-- `StrategyManager.select_optimal_hedges`. -/
def StrategyManager.select_optimal_hedges (mgr : StrategyManager)
    (recommendations : List HedgeRecommendation) (portfolio : Portfolio)
    (market_data : List (String × MarketData)) (max_hedge_cost : Option ℚ) :
    List HedgeRecommendation :=
  if recommendations.isEmpty then []
  else
    let rankings := mgr.rank_recommendations recommendations portfolio market_data
    if rankings.isEmpty then []
    else
      (select_greedy (effective_budget portfolio max_hedge_cost) rankings 0 []).map
        (fun r => r.recommendation)

/-- The `HedgeConfig` built for the delta-neutral strategy in
`_initialize_default_strategies`. -/
def delta_config : HedgeConfig :=
  { strategy := HedgeStrategy.delta_neutral
    enabled := true
    delta_threshold := 1/10
    rebalance_threshold := 1/20
    max_hedge_cost := 1/200 }

/-- The `HedgeConfig` built for the protective-put strategy. -/
def put_config : HedgeConfig :=
  { strategy := HedgeStrategy.protective_put
    enabled := true
    protective_put_delta := -(1/5)
    max_hedge_cost := 1/50
    min_time_to_expiry := 7 }

/-- The `HedgeConfig` built for the collar strategy. -/
def collar_config : HedgeConfig :=
  { strategy := HedgeStrategy.collar
    enabled := true
    collar_put_delta := -(1/5)
    collar_call_delta := 3/10
    max_hedge_cost := 3/200
    min_time_to_expiry := 14 }

/-- The manager produced by `StrategyManager.__init__` /
`_initialize_default_strategies`: the three default strategies in insertion
order with zeroed performance counters. -/
def defaultManager (m : MathFns) (thresholds : RiskThresholds) : StrategyManager :=
  { risk_thresholds := thresholds
    strategies :=
      [ { stype := HedgeStrategy.delta_neutral, config := delta_config,
          analyze := fun p md => .ok (dn_analyze_portfolio delta_config p md) },
        { stype := HedgeStrategy.protective_put, config := put_config,
          analyze := fun p md => .ok (pp_analyze_portfolio m put_config p md) },
        { stype := HedgeStrategy.collar, config := collar_config,
          analyze := fun p md => .ok (collar_analyze_portfolio m collar_config p md) } ]
    performance :=
      [ (HedgeStrategy.delta_neutral, 0),
        (HedgeStrategy.protective_put, 0),
        (HedgeStrategy.collar, 0) ] }

/-- C7: whenever `check_breach` reports no true flag, the manager's
`analyze_portfolio` returns the empty recommendation list with untouched
performance counters — for every registry (in particular, no strategy
behavior can influence the result, so none is invoked). -/
theorem analyze_portfolio_no_breach_short_circuit (mgr : StrategyManager)
    (portfolio : Portfolio) (market_data : List (String × MarketData))
    (h : ∀ kv ∈ mgr.risk_thresholds.check_breach portfolio, kv.2 = false) :
    mgr.analyze_portfolio portfolio market_data = ([], mgr.performance) := by
  have hany : (mgr.risk_thresholds.check_breach portfolio).any (fun kv => kv.2) = false := by
    rw [List.any_eq_false]
    intro kv hkv
    simp [h kv hkv]
  simp [StrategyManager.analyze_portfolio, hany]

/-- The empty portfolio. -/
def emptyPortfolio : Portfolio :=
  { positions := [], cash := 0 }

/-- Witness for C7: the default manager with default thresholds on the empty
portfolio (all six flags are false there). -/
theorem analyze_portfolio_no_breach_short_circuit_witness :
    (defaultManager mWitness {}).analyze_portfolio emptyPortfolio [] =
      ([], (defaultManager mWitness {}).performance) := by
  refine analyze_portfolio_no_breach_short_circuit _ _ _ ?_
  have hcb : (defaultManager mWitness {}).risk_thresholds.check_breach emptyPortfolio =
      [ ("delta", false), ("gamma", false), ("vega", false), ("theta", false),
        ("portfolio_size", false), ("position_size", false) ] := by
    norm_num [RiskThresholds.check_breach, defaultManager, emptyPortfolio,
      Portfolio.total_delta, Portfolio.total_gamma, Portfolio.total_vega,
      Portfolio.total_theta, Portfolio.total_market_value]
  intro kv hkv
  rw [hcb] at hkv
  fin_cases hkv <;> rfl

/-- Folding the manager's per-strategy loop over strategies that all raise
leaves the accumulator unchanged. -/
theorem analyze_step_foldl_all_error (portfolio : Portfolio)
    (market_data : List (String × MarketData)) :
    ∀ (l : List StrategyEntry) (acc : List HedgeRecommendation × List (HedgeStrategy × Nat)),
      (∀ e ∈ l, ∃ msg, e.analyze portfolio market_data = .error msg) →
      l.foldl (analyze_step portfolio market_data) acc = acc := by
  intro l
  induction l with
  | nil => intro acc _; rfl
  | cons e rest ih =>
    intro acc h
    obtain ⟨msg, hmsg⟩ := h e (by simp)
    have hstep : analyze_step portfolio market_data acc e = acc := by
      unfold analyze_step
      by_cases hen : e.config.enabled
      · simp [hen, hmsg]
      · simp [hen]
    rw [List.foldl_cons, hstep]
    exact ih acc (fun x hx => h x (by simp [hx]))

/-- C10: `get_hedge_recommendations` swallows strategy failures: even when
every registered strategy raises on every input, the call returns a plain
list — `[]` on an empty portfolio, the single fallback recommendation
otherwise.  (Market-data synthesis and fallback construction are total in
the embedding; per-strategy exceptions are caught inside
`analyze_portfolio`.) -/
theorem get_hedge_recommendations_never_raises (mgr : StrategyManager)
    (portfolio : Portfolio) (market_data : Option (List (String × MarketData)))
    (hfail : ∀ e ∈ mgr.strategies, ∀ p md, ∃ msg, e.analyze p md = .error msg) :
    mgr.get_hedge_recommendations portfolio market_data =
      match portfolio.positions with
      | [] => []
      | position :: _ => [basic_recommendation position] := by
  have hrecs : ∀ md, (mgr.analyze_portfolio portfolio md).1 = [] := by
    intro md
    unfold StrategyManager.analyze_portfolio
    by_cases hbr : (mgr.risk_thresholds.check_breach portfolio).any (fun kv => kv.2)
    · rw [if_pos hbr,
        analyze_step_foldl_all_error portfolio md mgr.strategies ([], mgr.performance)
          (fun e he => hfail e he portfolio md)]
    · rw [if_neg hbr]
  simp only [StrategyManager.get_hedge_recommendations, hrecs]
  cases hp : portfolio.positions with
  | nil => simp
  | cons q rest => simp

/-- A plain spot position used by closed witnesses. -/
def positionW : Position :=
  { symbol := "AAPL", position_type := PositionType.spot, size := 1,
    entry_price := 1, current_price := 1 }

/-- A manager whose single registered strategy always raises. -/
def failingManager : StrategyManager :=
  { risk_thresholds := {}
    strategies :=
      [ { stype := HedgeStrategy.delta_neutral, config := delta_config,
          analyze := fun _ _ => .error ("strategy failure") } ]
    performance := [(HedgeStrategy.delta_neutral, 0)] }

/-- Witness for C10: the always-raising manager on a one-position portfolio
still returns the fallback list. -/
theorem get_hedge_recommendations_never_raises_witness :
    failingManager.get_hedge_recommendations { positions := [positionW], cash := 0 } none =
      [basic_recommendation positionW] :=
  get_hedge_recommendations_never_raises failingManager
    { positions := [positionW], cash := 0 } none
    (by
      intro e he p md
      simp only [failingManager, List.mem_singleton] at he
      subst he
      exact ⟨"strategy failure", rfl⟩)

/-- C8: (i) the default-strategy manager's `get_hedge_recommendations` on a
portfolio with no positions returns `[]` (whatever the thresholds, cash and
optional market data); (ii) whenever the underlying analysis yields no
recommendations and the portfolio has a first position `q`, the call
returns exactly the one fallback recommendation, sized at 50% of `q.size`
and tagged `DELTA_NEUTRAL`. -/
theorem get_hedge_recommendations_empty_and_fallback (m : MathFns)
    (thresholds : RiskThresholds) (cash : ℚ)
    (mdOpt : Option (List (String × MarketData)))
    (mgr : StrategyManager) (portfolio : Portfolio) (q : Position) (rest : List Position) :
    ((defaultManager m thresholds).get_hedge_recommendations
        { positions := [], cash := cash } mdOpt = []) ∧
    (portfolio.positions = q :: rest →
      (mgr.analyze_portfolio portfolio
        (match mdOpt with
         | none => synthesize_market_data portfolio.positions
         | some mm => mm)).1 = [] →
      mgr.get_hedge_recommendations portfolio mdOpt = [basic_recommendation q] ∧
      (basic_recommendation q).size = q.size * (1/2) ∧
      (basic_recommendation q).strategy = some ("DELTA_NEUTRAL")) := by
  constructor
  · have hfst : ∀ md, ((defaultManager m thresholds).analyze_portfolio
        { positions := [], cash := cash } md).1 = [] := by
      intro md
      unfold StrategyManager.analyze_portfolio
      by_cases hbr : ((defaultManager m thresholds).risk_thresholds.check_breach
          { positions := [], cash := cash }).any (fun kv => kv.2)
      · rw [if_pos hbr]
        norm_num [defaultManager, analyze_step, dn_analyze_portfolio,
          pp_analyze_portfolio, collar_analyze_portfolio, Portfolio.total_delta,
          delta_config, put_config, collar_config, perfAddRecs]
      · rw [if_neg hbr]
    simp only [StrategyManager.get_hedge_recommendations, hfst]
    simp
  · intro hpos hrecs
    refine ⟨?_, rfl, rfl⟩
    simp only [StrategyManager.get_hedge_recommendations]
    rw [hrecs, hpos]
    simp

/-- Witness for C8: empty portfolio gives `[]`; a one-position portfolio
whose analysis is empty (no breach at default thresholds) gives exactly the
50%-sized `DELTA_NEUTRAL` fallback. -/
theorem get_hedge_recommendations_empty_and_fallback_witness :
    ((defaultManager mWitness {}).get_hedge_recommendations
        { positions := [], cash := 0 } none = []) ∧
    ((defaultManager mWitness {}).get_hedge_recommendations
        { positions := [positionW], cash := 0 } none = [basic_recommendation positionW] ∧
      (basic_recommendation positionW).size = positionW.size * (1/2) ∧
      (basic_recommendation positionW).strategy = some ("DELTA_NEUTRAL")) := by
  refine ⟨(get_hedge_recommendations_empty_and_fallback mWitness {} 0 none
    (defaultManager mWitness {}) { positions := [positionW], cash := 0 }
    positionW []).1, ?_⟩
  refine (get_hedge_recommendations_empty_and_fallback mWitness {} 0 none
    (defaultManager mWitness {}) { positions := [positionW], cash := 0 }
    positionW []).2 rfl ?_
  have hcb : ((defaultManager mWitness {}).risk_thresholds.check_breach
      { positions := [positionW], cash := 0 }).any (fun kv => kv.2) = false := by
    norm_num [RiskThresholds.check_breach, defaultManager, Portfolio.total_delta,
      Portfolio.total_gamma, Portfolio.total_vega, Portfolio.total_theta,
      Portfolio.total_market_value, Position.market_value, positionW]
  unfold StrategyManager.analyze_portfolio
  rw [hcb]
  simp

/-- The greedy loop never lets the running cost pass the budget: starting
from accumulator `total_cost`, the accepted costs sum to at most
`max budget total_cost`. -/
theorem select_greedy_cost_bound (budget : ℚ) :
    ∀ (l : List StrategyRanking) (total_cost : ℚ) (covered : List String),
      total_cost +
        ((select_greedy budget l total_cost covered).map (fun r => r.cost.total_cost)).sum ≤
        max budget total_cost := by
  intro l
  induction l with
  | nil =>
    intro t c
    simp only [select_greedy, List.map_nil, List.sum_nil, add_zero]
    exact le_max_right _ _
  | cons r rest ih =>
    intro t c
    simp only [select_greedy]
    split_ifs with h1 h2
    · exact ih t c
    · simp only [List.map_cons, List.sum_cons]
      have hb := ih (t + r.cost.total_cost) (get_risk_type r.recommendation :: c)
      have hle : t + r.cost.total_cost ≤ budget := not_lt.mp h1
      rw [max_eq_left hle] at hb
      have hmax : budget ≤ max budget t := le_max_left _ _
      linarith
    · exact ih t c

/-- C2 counterexample (claim as stated): with a supplied negative budget
`-1`, the returned set is empty, whose summed execution cost `0` exceeds
the effective budget — so the bound fails for the claim's unrestricted
"optional max cost". -/
theorem select_optimal_hedges_negative_budget_counterexample :
    ¬ ∃ accepted : List StrategyRanking,
        (defaultManager mWitness {}).select_optimal_hedges []
            { positions := [], cash := 0 } [] (some (-1)) =
          accepted.map (fun r => r.recommendation) ∧
        (accepted.map (fun r => r.cost.total_cost)).sum ≤
          effective_budget { positions := [], cash := 0 } (some (-1)) := by
  rintro ⟨accepted, h1, h2⟩
  have hsel : (defaultManager mWitness {}).select_optimal_hedges []
      { positions := [], cash := 0 } [] (some (-1)) = [] := by
    simp [StrategyManager.select_optimal_hedges]
  rw [hsel] at h1
  have hacc : accepted = [] := List.map_eq_nil_iff.mp h1.symm
  subst hacc
  simp only [List.map_nil, List.sum_nil, effective_budget] at h2
  linarith

/-- C2 amended: whenever the effective budget (supplied, or the default 2%
of `|portfolio total market value|` — always nonnegative) is nonnegative,
the set returned by `select_optimal_hedges` carries accepted rankings whose
summed `total_cost` is at most the effective budget; the bound covers
candidates accepted through the `score > 0.8` redundancy override, whose
acceptance still sits behind the budget check. -/
theorem select_optimal_hedges_within_budget (mgr : StrategyManager)
    (recommendations : List HedgeRecommendation) (portfolio : Portfolio)
    (market_data : List (String × MarketData)) (max_hedge_cost : Option ℚ)
    (hbudget : 0 ≤ effective_budget portfolio max_hedge_cost) :
    ∃ accepted : List StrategyRanking,
      mgr.select_optimal_hedges recommendations portfolio market_data max_hedge_cost =
        accepted.map (fun r => r.recommendation) ∧
      (accepted.map (fun r => r.cost.total_cost)).sum ≤
        effective_budget portfolio max_hedge_cost := by
  by_cases h1 : recommendations.isEmpty
  · exact ⟨[], by simp [StrategyManager.select_optimal_hedges, h1], by simpa using hbudget⟩
  · by_cases h2 : (mgr.rank_recommendations recommendations portfolio market_data).isEmpty
    · exact ⟨[], by simp [StrategyManager.select_optimal_hedges, h1, h2], by simpa using hbudget⟩
    · refine ⟨select_greedy (effective_budget portfolio max_hedge_cost)
        (mgr.rank_recommendations recommendations portfolio market_data) 0 [], ?_, ?_⟩
      · simp [StrategyManager.select_optimal_hedges, h1, h2]
      · have hb := select_greedy_cost_bound (effective_budget portfolio max_hedge_cost)
          (mgr.rank_recommendations recommendations portfolio market_data) 0 []
        rw [max_eq_left hbudget] at hb
        linarith

/-- Witness for the amended C2 with the default budget on the empty
portfolio (budget `0 ≥ 0`). -/
theorem select_optimal_hedges_within_budget_witness :
    ∃ accepted : List StrategyRanking,
      (defaultManager mWitness {}).select_optimal_hedges []
          { positions := [], cash := 0 } [] none =
        accepted.map (fun r => r.recommendation) ∧
      (accepted.map (fun r => r.cost.total_cost)).sum ≤
        effective_budget { positions := [], cash := 0 } none :=
  select_optimal_hedges_within_budget (defaultManager mWitness {}) []
    { positions := [], cash := 0 } [] none
    (by norm_num [effective_budget, Portfolio.total_market_value])
